import Mathlib

/-
Verification of the Multimodal_Agent frontend real-time client.

Shallow embedding of:
  * `frontend/lib/websocket-client.js` — class `MultimodalAgentClient`
    (connection handshake, heartbeat, reconnect backoff, inbound frame
    dispatch, and the outbound operations sendMessage / createNewChat /
    switchToChat);
  * `frontend/components/ChatInput.js` — the `ChatInterface` component's
    event handlers (`chat_switched`, `chat_created`, `nano_message`,
    `chat_message`) and `handleSendMessage`.

JavaScript objects become Lean structures; `null`/`undefined` become
`Option`; JS truthiness on strings is modelled explicitly; each handler
becomes a pure step function returning the new state together with the
frames it sent and the local effects it produced.  Handlers are modelled
as atomic steps, processed in the order the events arrive.
-/

namespace MultimodalAgent

/-- JS truthiness for a string-or-nullish value: `undefined`/`null` and the
empty string are falsy, every other string is truthy. -/
def jsStrTruthy : Option String → Bool
  | none => false
  | some s => !s.isEmpty

/-- JS `a || b` on string-or-nullish values. -/
def jsOr (a b : Option String) : Option String :=
  if jsStrTruthy a then a else b

/-- Model of JS `String.prototype.trim()`: strip leading and trailing
whitespace.  Defined over the character list so that it is
kernel-computable. -/
def jsTrim (s : String) : String :=
  String.mk (((s.data.dropWhile Char.isWhitespace).reverse.dropWhile
    Char.isWhitespace).reverse)

/-- Model of JS `Array.prototype.slice(-n)`: keep the last `n` elements. -/
def takeLast (n : Nat) (l : List α) : List α :=
  l.drop (l.length - n)

/-! ## The WebSocket client (`frontend/lib/websocket-client.js`) -/

/-- Browser WebSocket ready states.  `closed` also stands for `this.ws ===
null` (no socket object): every guard in the source tests `!this.ws ||
this.ws.readyState !== WebSocket.OPEN`, so the two cases behave alike. -/
inductive ReadyState
  | connecting
  | opened
  | closing
  | closed
deriving DecidableEq

/-- Opaque stand-in for a metadata object argument.  The source only tests
`metadata && typeof metadata === 'object'`, then serializes it verbatim. -/
structure Metadata where
  fields : List (String × String)
deriving DecidableEq

/-- An outbound JSON frame, as a record of the keys the client ever sets.
`none` means the key is absent from the serialized object; for `chat_id`,
`some none` means the key is present with value `null`. -/
structure Payload where
  token : Option String := none
  text : Option String := none
  chat_id : Option (Option String) := none
  title : Option String := none
  signature : Option String := none
  image : Option String := none
  metadata : Option Metadata := none
  type : Option String := none
  session_id : Option String := none
deriving DecidableEq

/-- The mutable fields of `MultimodalAgentClient`.  `pendingToken` models
the `token` argument captured by the `connect` closure; `heartbeatActive`
models `this.heartbeatInterval !== null`; `tokenSent` is `this._tokenSent`;
`nextSignature` is `this._nextSignature`. -/
structure WSClientState where
  chatId : Option String := none
  sessionId : Option String := none
  isAuthenticated : Bool := false
  isConnecting : Bool := false
  reconnectAttempts : Nat := 0
  tokenSent : Bool := false
  nextSignature : Option String := none
  heartbeatActive : Bool := false
  readyState : ReadyState := ReadyState.closed
  pendingToken : Option String := none
deriving DecidableEq

/-- The constructor's initial state (`new MultimodalAgentClient(url)`). -/
def initialClient : WSClientState := {}

/-- Model of `this.maxReconnectAttempts` (constructor, never mutated). -/
def maxReconnectAttempts : Nat := 5

/-- Model of `this.reconnectDelay` in milliseconds (constructor, never mutated). -/
def reconnectDelay : Nat := 1000

/-- The heartbeat interval period in milliseconds (`setInterval(..., 30000)`). -/
def heartbeatPeriodMs : Nat := 30000

/-- The stateless reconnect-backoff policy: the delay scheduled for the
`n`-th reconnect attempt (1-based), `this.reconnectDelay * Math.pow(2,
this.reconnectAttempts - 1)`. -/
def backoffDelay (n : Nat) : Nat :=
  reconnectDelay * 2 ^ (n - 1)

/-- Shorthand for the guard `this.isAuthenticated && this.ws &&
this.ws.readyState === WebSocket.OPEN` shared by every outbound operation. -/
def connectedAuth (s : WSClientState) : Bool :=
  s.isAuthenticated && s.readyState == ReadyState.opened

/-- Result of a public API call: the updated client state, the frames
written to the socket (in order), and the exception message if the call
threw. -/
structure SendOut where
  state : WSClientState
  sent : List Payload
  threw : Option String
deriving DecidableEq

/-- Model of `MultimodalAgentClient.sendMessage(message, image, chatId, metadata)`. -/
def sendMessage (s : WSClientState) (message : String) (image : Option String)
    (chatId : Option String) (metadata : Option Metadata) : SendOut :=
  if !connectedAuth s then
    { state := s, sent := [], threw := some "Not connected or authenticated" }
  else if (jsTrim message).isEmpty then
    { state := s, sent := [], threw := none }
  else
    let payload : Payload :=
      { text := some (jsTrim message)
        chat_id := some (jsOr chatId s.chatId)
        signature := if jsStrTruthy s.nextSignature then s.nextSignature else none
        image := if jsStrTruthy image then image else none
        metadata := metadata }
    { state := { s with nextSignature := none }
      sent := [payload]
      threw := none }

/-- Model of `MultimodalAgentClient.createNewChat(title)`. -/
def createNewChat (s : WSClientState) (title : String) : SendOut :=
  if !connectedAuth s then
    { state := s, sent := [], threw := some "Not connected or authenticated" }
  else
    { state := s
      sent := [{ chat_id := some none, title := some title }]
      threw := none }

/-- Model of `MultimodalAgentClient.switchToChat(chatId)`. -/
def switchToChat (s : WSClientState) (chatId : Option String) : SendOut :=
  if !connectedAuth s then
    { state := s, sent := [], threw := some "Not connected or authenticated" }
  else if chatId == s.chatId then
    { state := s, sent := [], threw := none }
  else
    { state := s, sent := [{ chat_id := some chatId }], threw := none }

/-- The heartbeat frame: `payload = { type: 'ping' }` with `session_id`
added when `this.sessionId` is truthy. -/
def pingPayload (s : WSClientState) : Payload :=
  { type := some "ping"
    session_id := if jsStrTruthy s.sessionId then s.sessionId else none }

/-- One firing of the `setInterval` callback installed by `startHeartbeat`:
nothing fires unless the interval is installed, and the callback itself
returns without sending when unauthenticated or the socket is not open. -/
def heartbeatTick (s : WSClientState) : List Payload :=
  if s.heartbeatActive && s.isAuthenticated
      && s.readyState == ReadyState.opened then
    [pingPayload s]
  else []

/-! ### Inbound frame handling -/

/-- A parsed inbound JSON object, as a record of the keys `handleMessage`
and the individual handlers ever read. -/
structure InData where
  type : Option String := none
  event : Option String := none
  text : Option String := none
  session_id : Option String := none
  chat_id : Option String := none
  user : Option String := none
  agent : Option String := none
  message : Option String := none
  timestamp : Option String := none
deriving DecidableEq

/-- A raw inbound frame: either a byte string that is not valid JSON, or
the parsed object. -/
inductive RawFrame
  | malformed (raw : String)
  | parsed (data : InData)
deriving DecidableEq

/-- An occurrence of `this.emit(name, ...)` towards registered handlers. -/
inductive Emitted
  | ev (name : String) (data : InData)
  | disconnected (code : Nat) (reason : String)
deriving DecidableEq

/-- Result of processing one inbound frame or close event: new state,
events emitted to registered handlers, number of `console.warn` /
`console.error` reports, whether the handler closed the socket, and the
reconnect delay if one was scheduled. -/
structure HandleOut where
  state : WSClientState
  emitted : List Emitted
  localReports : Nat
  closedSocket : Bool
  reconnectDelayMs : Option Nat := none
deriving DecidableEq

/-- Event names with a dedicated `case` in `handleMessage`'s `switch`. -/
def recognizedEvents : List String :=
  ["auth_success", "auth_error", "auth_required", "session_started",
   "chat_created", "chat_switched", "title_updated", "nano_message",
   "agent_direct_message", "agent_notification", "message", "pong"]

/-- Model of `MultimodalAgentClient.handleMessage(data)`.  The source's `switch
(eventType)` is rendered as an equality chain over the case labels. -/
def handleMessage (s : WSClientState) (d : InData) : HandleOut :=
  -- `if (data.text && data.text.trim() === '')` — drop empty backend text
  if jsStrTruthy d.text && jsTrim (d.text.getD "") == "" then
    { state := s, emitted := [], localReports := 1, closedSocket := false }
  else if jsOr d.type d.event == some "auth_success" then
    { state := { s with
        isAuthenticated := true
        sessionId := d.session_id
        chatId := d.chat_id
        heartbeatActive := true }
      emitted := [Emitted.ev "auth_success" d]
      localReports := 0, closedSocket := false }
  else if jsOr d.type d.event == some "auth_error" then
    { state := { s with isAuthenticated := false, sessionId := none }
      emitted := [Emitted.ev "auth_error" d]
      localReports := 2, closedSocket := false }
  else if jsOr d.type d.event == some "auth_required" then
    { state := { s with isAuthenticated := false, sessionId := none }
      emitted := [Emitted.ev "auth_required" d]
      localReports := 0, closedSocket := false }
  else if jsOr d.type d.event == some "session_started" then
    { state := { s with sessionId := d.session_id, chatId := d.chat_id }
      emitted := [Emitted.ev "session_started" d]
      localReports := 0, closedSocket := false }
  else if jsOr d.type d.event == some "chat_created" then
    { state := { s with chatId := d.chat_id }
      emitted := [Emitted.ev "chat_created" d]
      localReports := 0, closedSocket := false }
  else if jsOr d.type d.event == some "chat_switched" then
    { state := { s with chatId := d.chat_id }
      emitted := [Emitted.ev "chat_switched" d]
      localReports := 0, closedSocket := false }
  else if jsOr d.type d.event == some "title_updated" then
    { state := s
      emitted := [Emitted.ev "title_updated" d]
      localReports := 0, closedSocket := false }
  else if jsOr d.type d.event == some "nano_message" then
    { state := s
      emitted := [Emitted.ev "nano_message" d]
      localReports := 0, closedSocket := false }
  else if jsOr d.type d.event == some "agent_direct_message" then
    { state := s
      emitted := [Emitted.ev "agent_direct_message" d]
      localReports := 0, closedSocket := false }
  else if jsOr d.type d.event == some "agent_notification" then
    { state := s
      emitted := [Emitted.ev "agent_notification" d]
      localReports := 0, closedSocket := false }
  else if jsOr d.type d.event == some "message" then
    { state := s
      emitted := [Emitted.ev "message" d]
      localReports := 0, closedSocket := false }
  else if jsOr d.type d.event == some "pong" then
    { state := s, emitted := [], localReports := 0, closedSocket := false }
  -- default: a regular chat message when `text` is defined and trims
  -- non-empty, otherwise a warned-and-ignored unknown frame
  else if d.text.isSome && jsTrim (d.text.getD "") != "" then
    { state := s
      emitted := [Emitted.ev "chat_message" d]
      localReports := 0, closedSocket := false }
  else
    { state := s, emitted := [], localReports := 1
      closedSocket := false }

/-- The `onmessage` handler: `JSON.parse` inside `try`, with a parse
failure caught and logged locally. -/
def onMessage (s : WSClientState) : RawFrame → HandleOut
  | RawFrame.malformed _ =>
      { state := s, emitted := [], localReports := 1, closedSocket := false }
  | RawFrame.parsed d => handleMessage s d

/-- Model of `MultimodalAgentClient.scheduleReconnect(token)`: bump the attempt
counter and compute the delay for the `setTimeout`. -/
def scheduleReconnect (s : WSClientState) : WSClientState × Nat :=
  let attempts := s.reconnectAttempts + 1
  ({ s with reconnectAttempts := attempts }, backoffDelay attempts)

/-- The `onclose` handler. -/
def onClose (s : WSClientState) (wasClean : Bool) (code : Nat)
    (reason : String) : HandleOut :=
  let s1 := { s with
    tokenSent := false
    isAuthenticated := false
    sessionId := none
    isConnecting := false
    heartbeatActive := false
    readyState := ReadyState.closed }
  if !wasClean && s1.reconnectAttempts < maxReconnectAttempts then
    let (s2, d) := scheduleReconnect s1
    { state := s2, emitted := [Emitted.disconnected code reason]
      localReports := 0, closedSocket := false, reconnectDelayMs := some d }
  else
    { state := s1, emitted := [Emitted.disconnected code reason]
      localReports := 0, closedSocket := false, reconnectDelayMs := none }

/-- The `onopen` handler.  It can only fire on a socket that is still
connecting; it resets the attempt counter, sends the captured token once
(guarded by `_tokenSent`), and closes the socket when no token was given.
Returns the new state, the frames sent, and whether the handler initiated
a close. -/
def onOpen (s : WSClientState) : WSClientState × List Payload × Bool :=
  if s.readyState != ReadyState.connecting then (s, [], false)
  else if jsStrTruthy s.pendingToken then
    if !s.tokenSent then
      ({ s with
          readyState := ReadyState.opened
          isConnecting := false
          reconnectAttempts := 0
          tokenSent := true },
       [{ token := s.pendingToken }], false)
    else
      ({ s with
          readyState := ReadyState.opened
          isConnecting := false
          reconnectAttempts := 0 },
       [], false)
  else
    ({ s with
        readyState := ReadyState.closing
        isConnecting := false
        reconnectAttempts := 0 },
     [], true)

/-- Model of `MultimodalAgentClient.connect(token)` up to the creation of the new
socket: a no-op while already connecting or open; otherwise records the
token and puts the fresh socket in the connecting state. -/
def connect (s : WSClientState) (token : Option String) : WSClientState :=
  if s.isConnecting || s.readyState == ReadyState.opened then s
  else { s with
    isConnecting := true
    readyState := ReadyState.connecting
    pendingToken := token }

/-- Model of `MultimodalAgentClient.disconnect()`: stop the heartbeat, close the
socket if one exists, and reset the session fields. -/
def disconnect (s : WSClientState) : WSClientState :=
  { s with
    heartbeatActive := false
    readyState := if s.readyState == ReadyState.closed then ReadyState.closed
                  else ReadyState.closing
    isAuthenticated := false
    sessionId := none
    chatId := none
    reconnectAttempts := 0 }

/-! ### A step machine over the client

One `Action` is one atomic callback or public-API call; `step` dispatches
to the handler definitions above.  A trace of actions models one run of
the client. -/

/-- One atomic event in a run of the client. -/
inductive Action
  | callConnect (token : Option String)
  | wsOpen
  | wsMessage (frame : RawFrame)
  | wsClose (wasClean : Bool) (code : Nat) (reason : String)
  | heartbeatTick
  | callSendMessage (message : String) (image : Option String)
      (chatId : Option String) (metadata : Option Metadata)
  | callCreateNewChat (title : String)
  | callSwitchToChat (chatId : Option String)
  | callDisconnect
deriving DecidableEq

/-- Everything one step produces. -/
structure StepOut where
  state : WSClientState
  sent : List Payload
  threw : Option String := none
  emitted : List Emitted := []
  localReports : Nat := 0
  closedSocket : Bool := false
  reconnectDelayMs : Option Nat := none
deriving DecidableEq

/-- Dispatch one action to the corresponding handler. -/
def step (s : WSClientState) : Action → StepOut
  | Action.callConnect tok => { state := connect s tok, sent := [] }
  | Action.wsOpen =>
      let (s', sent, closed) := onOpen s
      { state := s', sent := sent, closedSocket := closed }
  | Action.wsMessage f =>
      let o := onMessage s f
      { state := o.state, sent := [], emitted := o.emitted
        localReports := o.localReports, closedSocket := o.closedSocket }
  | Action.wsClose wasClean code reason =>
      let o := onClose s wasClean code reason
      { state := o.state, sent := [], emitted := o.emitted
        localReports := o.localReports
        reconnectDelayMs := o.reconnectDelayMs }
  | Action.heartbeatTick => { state := s, sent := heartbeatTick s }
  | Action.callSendMessage m img cid md =>
      let o := sendMessage s m img cid md
      { state := o.state, sent := o.sent, threw := o.threw }
  | Action.callCreateNewChat title =>
      let o := createNewChat s title
      { state := o.state, sent := o.sent, threw := o.threw }
  | Action.callSwitchToChat cid =>
      let o := switchToChat s cid
      { state := o.state, sent := o.sent, threw := o.threw }
  | Action.callDisconnect => { state := disconnect s, sent := [] }

/-- Run a trace of actions, returning the final state. -/
def runState (s : WSClientState) : List Action → WSClientState
  | [] => s
  | a :: as => runState (step s a).state as

/-- Whether an action is the firing of `onopen` on a connecting socket —
the moment a new connection becomes live.  Connections of a run are
numbered by counting these moments. -/
def opensConnection (s : WSClientState) : Action → Bool
  | Action.wsOpen => s.readyState == ReadyState.connecting
  | _ => false

/-- Run a trace and collect every frame sent, tagged with the number of
the connection it was sent on (the count of socket opens so far). -/
def runEpochs (s : WSClientState) (e : Nat) : List Action → List (Nat × Payload)
  | [] => []
  | a :: as =>
      let e' := if opensConnection s a then e + 1 else e
      let o := step s a
      o.sent.map (fun p => (e', p)) ++ runEpochs o.state e' as

/-- The frames of one connection, in order. -/
def epochFrames (log : List (Nat × Payload)) (e : Nat) : List Payload :=
  (log.filter (fun pr => pr.1 == e)).map (fun pr => pr.2)

/-- One step of the well-orderedness condition: `connect` may only be
called when the previous socket is fully closed (its `onclose` already
fired), reflecting the browser's event ordering. -/
def connectGuardOk (s : WSClientState) : Action → Bool
  | Action.callConnect _ => s.readyState == ReadyState.closed
  | _ => true

/-- A well-ordered trace: every `connect` call happens on a fully closed
socket. -/
def wellFormedFrom (s : WSClientState) : List Action → Bool
  | [] => true
  | a :: as => connectGuardOk s a && wellFormedFrom (step s a).state as

/-- Condition placed on each trace step by well-orderedness: `connect`
fires only on a fully closed socket. -/
def connectOnlyClosed (s : WSClientState) : Action → Prop
  | Action.callConnect _ => s.readyState = ReadyState.closed
  | _ => True

/-- A frame is exactly the auth frame `JSON.stringify({ token })`. -/
def isTokenOnlyFrame (p : Payload) : Bool :=
  p.token.isSome && p.text == none && p.chat_id == none && p.title == none
    && p.signature == none && p.image == none && p.metadata == none
    && p.type == none && p.session_id == none

/-- A connection's frame list is well-started: either empty, or its first
frame is exactly the token frame and no later frame carries a token. -/
def goodEpoch : List Payload → Bool
  | [] => true
  | p :: rest => isTokenOnlyFrame p && rest.all (fun q => q.token == none)

/-! ## The `ChatInterface` component (`frontend/components/ChatInput.js`)

The component-level model covers the claim-relevant state: the bound chat
id, the rolling nano status stream, the message list and the
`isSending` / `isTyping` / `isConnected` flags.  Nano events on the wire
carry no chat id; to state provenance properties each modelled nano event
is tagged with the chat the server was bound to when it emitted the event
(`origin`), a specification-only ghost field that the handlers copy but
never read. -/

/-- One line of the rolling nano status stream
(`{ id, agent, text, ts }`), plus the ghost `origin` tag. -/
structure NanoEntry where
  agent : String
  text : String
  ts : String
  origin : Option String
deriving DecidableEq

/-- One rendered chat message (claim-relevant fields). -/
structure UIMessage where
  content : String
  role : String
  agent : Option String
deriving DecidableEq

/-- The claim-relevant React state of `ChatInterface`. -/
structure UIState where
  chatId : Option String := none
  nanoStream : List NanoEntry := []
  nanoExpanded : Bool := false
  isSending : Bool := false
  isTyping : Bool := false
  isConnected : Bool := false
  messages : List UIMessage := []
deriving DecidableEq

/-- The component state paired with the ghost server-side bound chat, so
nano provenance can be stated. -/
structure GUIState where
  serverChat : Option String
  ui : UIState
deriving DecidableEq

/-- Cap used by `setNanoStream`: keep only the last 12 lines (`next.slice(-12)`). -/
def nanoKeep : Nat := 12

/-- One atomic event at the component: a server event delivered through
the client's `emit`, or one invocation of `handleSendMessage`.  For a
submission, `sendOk` records whether the underlying
`client.sendMessage` call succeeded or threw. -/
inductive UIAction
  | evChatSwitched (chatId : String)
  | evChatCreated (chatId : String)
  | evNanoMessage (agent message ts : String)
  | evChatMessage (text : String) (agentRequired : Bool)
      (agentName : Option String)
  | submit (text : String) (sendOk : Bool)
deriving DecidableEq

/-- Frames the component asked the client to send during one step,
identified by their trimmed text. -/
structure UIStepOut where
  gstate : GUIState
  sentTexts : List String
deriving DecidableEq

/-- One step of the `ChatInterface` handlers. -/
def uiStep (g : GUIState) : UIAction → UIStepOut
  | UIAction.evChatSwitched c =>
      { gstate :=
          { serverChat := some c
            ui := { g.ui with
              chatId := some c
              nanoStream := []
              nanoExpanded := false } }
        sentTexts := [] }
  | UIAction.evChatCreated c =>
      { gstate :=
          { serverChat := some c
            ui := { g.ui with
              chatId := some c
              nanoStream := []
              nanoExpanded := false } }
        sentTexts := [] }
  | UIAction.evNanoMessage a m ts =>
      let entry : NanoEntry :=
        { agent := a, text := m, ts := ts, origin := g.serverChat }
      { gstate :=
          { g with ui := { g.ui with
              nanoStream := takeLast nanoKeep (g.ui.nanoStream ++ [entry]) } }
        sentTexts := [] }
  | UIAction.evChatMessage t req name =>
      let ag := if req then (jsOr name (some "assistant")).getD "assistant"
                else "orchestrator"
      { gstate :=
          { g with ui := { g.ui with
              messages := g.ui.messages
                ++ [{ content := t, role := "assistant", agent := some ag }]
              isTyping := false
              isSending := false } }
        sentTexts := [] }
  | UIAction.submit text ok =>
      let m := jsTrim text
      if m.isEmpty || !g.ui.isConnected || g.ui.isSending then
        { gstate := g, sentTexts := [] }
      else
        let ui1 := { g.ui with
          isSending := true
          isTyping := true
          messages := g.ui.messages
            ++ [{ content := m, role := "user", agent := none }] }
        if ok then
          { gstate := { g with ui := ui1 }, sentTexts := [m] }
        else
          { gstate :=
              { g with ui := { ui1 with isTyping := false, isSending := false } }
            sentTexts := [] }

/-- Run a trace of component events. -/
def uiRun (g : GUIState) : List UIAction → GUIState
  | [] => g
  | a :: as => uiRun (uiStep g a).gstate as

/-- All frames (by trimmed text) the component sent over a trace. -/
def uiSent (g : GUIState) : List UIAction → List String
  | [] => []
  | a :: as =>
      let o := uiStep g a
      o.sentTexts ++ uiSent o.gstate as

/-- The component state right after `auth_success` bound it to chat `c`. -/
def uiInit (c : Option String) : GUIState :=
  { serverChat := c
    ui := { chatId := c, isConnected := true } }

/-- Whether a component event rebinds the connection to the chat `A`. -/
def rebindsTo (A : Option String) : UIAction → Bool
  | UIAction.evChatSwitched c => some c == A
  | UIAction.evChatCreated c => some c == A
  | _ => false

/-- Whether a component event is the final `chat_message` of a turn. -/
def isChatMessageEv : UIAction → Bool
  | UIAction.evChatMessage _ _ _ => true
  | _ => false

/-! ### The inbound wire grammar (spec §6)

These predicates follow the spec's words for the three inbound frame
shapes other than auth and heartbeat — `(text, chat_id, image?, metadata?,
signature?)` for a turn, `(chat_id: null, title)` to create a chat,
`(chat_id)` with a non-null id to switch — so that the frames the client
actually produces can be compared against them. -/

/-- Spec shape of a turn frame: `text` and `chat_id` present, optional
`image` / `metadata` / `signature`, and no other key. -/
def specTurnFrame (p : Payload) : Bool :=
  p.text.isSome && p.chat_id.isSome && p.token == none && p.title == none
    && p.type == none && p.session_id == none

/-- Spec shape of a create-chat frame: exactly `chat_id: null` and a
`title`. -/
def specCreateChatFrame (p : Payload) : Bool :=
  p.chat_id == some none && p.title.isSome && p.token == none
    && p.text == none && p.signature == none && p.image == none
    && p.metadata == none && p.type == none && p.session_id == none

/-- Spec shape of a switch-chat frame: exactly a non-null `chat_id`. -/
def specSwitchChatFrame (p : Payload) : Bool :=
  (match p.chat_id with | some (some _) => true | _ => false)
    && p.title == none && p.token == none && p.text == none
    && p.signature == none && p.image == none && p.metadata == none
    && p.type == none && p.session_id == none

/-- Whether a `type`/`event` value hits a dedicated `switch` case of
`handleMessage`. -/
def recognizedEvent : Option String → Bool
  | some t => recognizedEvents.contains t
  | none => false

/-- Connection-lifecycle invariant tying `_tokenSent` to the socket
state: a socket that is still connecting, or fully closed, has not sent
its token yet. -/
def tokenInv (s : WSClientState) : Prop :=
  (s.readyState = ReadyState.connecting → s.tokenSent = false)
    ∧ (s.readyState = ReadyState.closed → s.tokenSent = false)

/-! ## Theorems -/

/-- C9: `sendMessage` transmits a frame if and only if the client is
authenticated, the socket is OPEN and the message trims to a non-empty
string; when unauthenticated or the socket is not OPEN it throws
"Not connected or authenticated" without sending or changing state; when
authenticated with an empty trimmed message it returns silently without
sending a frame, raising an error, or changing any client state. -/
theorem sendMessage_send_condition (s : WSClientState) (m : String)
    (img cid : Option String) (md : Option Metadata) :
    (connectedAuth s = false →
      sendMessage s m img cid md =
        { state := s, sent := []
          threw := some "Not connected or authenticated" }) ∧
    (connectedAuth s = true → (jsTrim m).isEmpty = true →
      sendMessage s m img cid md = { state := s, sent := [], threw := none }) ∧
    (connectedAuth s = true → (jsTrim m).isEmpty = false →
      (sendMessage s m img cid md).sent.length = 1 ∧
      (sendMessage s m img cid md).threw = none) ∧
    ((sendMessage s m img cid md).sent ≠ [] ↔
      (connectedAuth s = true ∧ (jsTrim m).isEmpty = false)) := by
  unfold sendMessage
  cases h : connectedAuth s <;> cases h2 : (jsTrim m).isEmpty <;> simp [h, h2]

/-- Closed instance of C9: with an authenticated open client and the
message "hello", a frame is sent; the hypotheses of each used component
are discharged at the concrete input. -/
theorem sendMessage_send_condition_witness :
    connectedAuth { isAuthenticated := true
                    readyState := ReadyState.opened } = true ∧
    (jsTrim "hello").isEmpty = false ∧
    (sendMessage { isAuthenticated := true, readyState := ReadyState.opened }
        "hello" none none none).sent.length = 1 ∧
    (sendMessage { isAuthenticated := true, readyState := ReadyState.opened }
        "" none none none).sent = [] := by
  refine ⟨rfl, by decide, ?_, ?_⟩
  · exact ((sendMessage_send_condition
      { isAuthenticated := true, readyState := ReadyState.opened }
      "hello" none none none).2.2.1 rfl (by decide)).1
  · exact congrArg SendOut.sent ((sendMessage_send_condition
      { isAuthenticated := true, readyState := ReadyState.opened }
      "" none none none).2.1 rfl (by decide))

/-- C10: for an authenticated client with an open socket, `switchToChat`
with the currently bound chat id sends no frame and changes no client
state; a switch frame is sent exactly when the target differs from the
current chat id. -/
theorem switchToChat_redundant_noop (s : WSClientState) (cid : Option String)
    (h : connectedAuth s = true) :
    (cid = s.chatId →
      switchToChat s cid = { state := s, sent := [], threw := none }) ∧
    (cid ≠ s.chatId →
      switchToChat s cid =
        { state := s, sent := [{ chat_id := some cid }], threw := none }) := by
  unfold switchToChat
  constructor <;> intro hc <;> simp [h, hc]

/-- Closed instance of C10: switching to the already-bound chat "c1" is a
no-op, while switching to "c2" sends the switch frame. -/
theorem switchToChat_redundant_noop_witness :
    connectedAuth { isAuthenticated := true, readyState := ReadyState.opened
                    chatId := some "c1" } = true ∧
    switchToChat { isAuthenticated := true, readyState := ReadyState.opened
                   chatId := some "c1" } (some "c1") =
      { state := { isAuthenticated := true, readyState := ReadyState.opened
                   chatId := some "c1" }
        sent := [], threw := none } ∧
    (switchToChat { isAuthenticated := true, readyState := ReadyState.opened
                    chatId := some "c1" } (some "c2")).sent =
      [{ chat_id := some (some "c2") }] := by
  refine ⟨rfl, ?_, ?_⟩
  · exact (switchToChat_redundant_noop
      { isAuthenticated := true, readyState := ReadyState.opened
        chatId := some "c1" } (some "c1") rfl).1 rfl
  · exact congrArg SendOut.sent ((switchToChat_redundant_noop
      { isAuthenticated := true, readyState := ReadyState.opened
        chatId := some "c1" } (some "c2") rfl).2 (by decide))

/-- C5: the reconnect backoff is the stateless policy
`backoffDelay n = reconnectDelay * 2 ^ (n - 1)` with `reconnectDelay =
1000`; the close handler schedules a reconnect exactly after an unclean
close while fewer than `maxReconnectAttempts = 5` attempts have been
made, attempt `n` being scheduled with delay `backoffDelay n`; a clean
close, or any close after the 5th attempt, schedules nothing, and no
other action ever schedules a reconnect. -/
theorem reconnect_backoff (s : WSClientState) (code : Nat) (reason : String) :
    reconnectDelay = 1000 ∧ maxReconnectAttempts = 5 ∧
    (∀ n, backoffDelay n = reconnectDelay * 2 ^ (n - 1)) ∧
    (onClose s true code reason).reconnectDelayMs = none ∧
    (s.reconnectAttempts < maxReconnectAttempts →
      (onClose s false code reason).reconnectDelayMs =
        some (backoffDelay (s.reconnectAttempts + 1)) ∧
      (onClose s false code reason).state.reconnectAttempts =
        s.reconnectAttempts + 1) ∧
    (maxReconnectAttempts ≤ s.reconnectAttempts →
      (onClose s false code reason).reconnectDelayMs = none) ∧
    (∀ a dl, (step s a).reconnectDelayMs = some dl →
      ∃ c r, a = Action.wsClose false c r ∧
        s.reconnectAttempts < maxReconnectAttempts ∧
        dl = backoffDelay (s.reconnectAttempts + 1)) := by
  refine ⟨rfl, rfl, fun n => rfl, ?_, ?_, ?_, ?_⟩
  · simp [onClose]
  · intro h
    simp [onClose, scheduleReconnect, h]
  · intro h
    simp [onClose, Nat.not_lt.mpr h]
  · intro a dl hdl
    cases a with
    | wsClose wasClean c r =>
        cases wasClean with
        | false =>
            by_cases h : s.reconnectAttempts < maxReconnectAttempts
            · simp [step, onClose, scheduleReconnect, h] at hdl
              exact ⟨c, r, rfl, h, hdl.symm⟩
            · simp [step, onClose, h] at hdl
        | true => simp [step, onClose] at hdl
    | callConnect tok => simp [step] at hdl
    | wsOpen => simp [step] at hdl
    | wsMessage f => simp [step] at hdl
    | heartbeatTick => simp [step] at hdl
    | callSendMessage m img cid md => simp [step] at hdl
    | callCreateNewChat t => simp [step] at hdl
    | callSwitchToChat cid2 => simp [step] at hdl
    | callDisconnect => simp [step] at hdl

/-- Closed instance of C5: after two prior attempts, an unclean close
schedules the third attempt at 4000 ms, and a clean close schedules
nothing. -/
theorem reconnect_backoff_witness :
    ({ reconnectAttempts := 2 } : WSClientState).reconnectAttempts
      < maxReconnectAttempts ∧
    (onClose { reconnectAttempts := 2 } false 1006 "abnormal").reconnectDelayMs
      = some 4000 ∧
    (onClose { reconnectAttempts := 2 } true 1000 "bye").reconnectDelayMs
      = none := by
  refine ⟨by decide, ?_, ?_⟩
  · have h := (reconnect_backoff { reconnectAttempts := 2 } 1006
      "abnormal").2.2.2.2.1 (by decide)
    exact h.1.trans (by rfl)
  · exact (reconnect_backoff { reconnectAttempts := 2 } 1000 "bye").2.2.2.1

/-- C4: when a next-signature is set, the next successfully sent chat
message carries it as the payload's `signature` field and the send clears
the stored signature, so a following send carries no signature; the
signature changes no other payload field, and neither a thrown send nor
an empty-message send consumes it. -/
theorem signature_one_shot (s s' : WSClientState) (sig m m2 : String)
    (img cid img2 cid2 : Option String) (md md2 : Option Metadata)
    (hsig : s.nextSignature = some sig) (hne : sig ≠ "")
    (hca : connectedAuth s = true) (hm : (jsTrim m).isEmpty = false) :
    (sendMessage s m img cid md).sent =
      (sendMessage { s with nextSignature := none } m img cid md).sent.map
        (fun q => { q with signature := some sig }) ∧
    (sendMessage s m img cid md).state = { s with nextSignature := none } ∧
    (∀ q ∈ (sendMessage { s with nextSignature := none } m img cid md).sent,
      q.signature = none) ∧
    (∀ p ∈ (sendMessage (sendMessage s m img cid md).state
        m2 img2 cid2 md2).sent, p.signature = none) ∧
    (connectedAuth s' = true → (sendMessage s' "" img cid md).state = s') ∧
    (connectedAuth s' = false → (sendMessage s' m img cid md).state = s') := by
  have hE : sig.isEmpty = false := by
    rw [Bool.eq_false_iff]
    intro hc
    exact hne ((String.isEmpty_iff sig).mp hc)
  have hTr' : jsStrTruthy (some sig) = true := by
    simp [jsStrTruthy, hE]
  have hTr : jsStrTruthy s.nextSignature = true := by
    rw [hsig]; exact hTr' 
  have hca2 : connectedAuth { s with nextSignature := none } = true := by
    simpa [connectedAuth] using hca
  refine ⟨?_, ?_, ?_, ?_, ?_, ?_⟩
  · simp [sendMessage, hca, hca2, hm, hTr, hTr', hsig]
  · simp [sendMessage, hca, hm]
  · intro q hq
    simp [sendMessage, hca2, hm, jsStrTruthy] at hq
    simp [hq]
  · intro p hp
    have hst : (sendMessage s m img cid md).state =
        { s with nextSignature := none } := by
      simp [sendMessage, hca, hm]
    rw [hst] at hp
    by_cases h2 : (jsTrim m2).isEmpty
    · simp [sendMessage, hca2, h2] at hp
    · simp [sendMessage, hca2, h2, jsStrTruthy] at hp
      simp [hp]
  · intro hca'
    have hemp : (jsTrim "").isEmpty = true := by decide
    simp [sendMessage, hca', hemp]
  · intro hca'
    simp [sendMessage, hca']

/-- Closed instance of C4: with the signature "writer" pending, sending
"hi" attaches it and clears it. -/
theorem signature_one_shot_witness :
    ({ isAuthenticated := true, readyState := ReadyState.opened
       nextSignature := some "writer" } : WSClientState).nextSignature
      = some "writer" ∧
    ("writer" : String) ≠ "" ∧
    connectedAuth { isAuthenticated := true, readyState := ReadyState.opened
                    nextSignature := some "writer" } = true ∧
    (jsTrim "hi").isEmpty = false ∧
    (sendMessage { isAuthenticated := true, readyState := ReadyState.opened
                   nextSignature := some "writer" }
      "hi" none none none).state =
      { isAuthenticated := true, readyState := ReadyState.opened
        nextSignature := none } := by
  refine ⟨rfl, by decide, rfl, by decide, ?_⟩
  exact (signature_one_shot
    { isAuthenticated := true, readyState := ReadyState.opened
      nextSignature := some "writer" }
    initialClient "writer" "hi" "x" none none none none none none
    rfl (by decide) rfl (by decide)).2.1

/-- C6: the heartbeat frame has type "ping" (with the session id when one
is set), fires on a 30000 ms interval, is sent by a tick exactly when the
interval is installed, the client is authenticated and the socket is
OPEN; the interval is installed by the `auth_success` handler and removed
by the close handler and by `disconnect`; and no action whatsoever sends
a ping unless the client is authenticated with the interval installed and
the socket OPEN. -/
theorem heartbeat_gating (s : WSClientState) (d : InData) (a : Action)
    (wasClean : Bool) (code : Nat) (reason : String) :
    heartbeatPeriodMs = 30000 ∧
    (s.heartbeatActive = true → s.isAuthenticated = true →
      s.readyState = ReadyState.opened →
      heartbeatTick s = [pingPayload s] ∧
        (pingPayload s).type = some "ping") ∧
    (s.isAuthenticated = false → heartbeatTick s = []) ∧
    ((jsStrTruthy d.text && jsTrim (d.text.getD "") == "") = false →
      jsOr d.type d.event = some "auth_success" →
      (handleMessage s d).state.heartbeatActive = true) ∧
    ((onClose s wasClean code reason).state.heartbeatActive = false) ∧
    ((disconnect s).heartbeatActive = false) ∧
    (∀ p ∈ (step s a).sent, p.type = some "ping" →
      s.heartbeatActive = true ∧ s.isAuthenticated = true ∧
        s.readyState = ReadyState.opened) := by
  refine ⟨rfl, ?_, ?_, ?_, ?_, ?_, ?_⟩
  · intro h1 h2 h3
    exact ⟨by simp [heartbeatTick, h1, h2, h3], rfl⟩
  · intro h
    simp [heartbeatTick, h]
  · intro hflt hev
    simp [handleMessage, hflt, hev]
  · simp [onClose]
    split <;> simp [scheduleReconnect]
  · simp [disconnect]
  · intro p hp hping
    cases a with
    | callConnect tok => simp [step] at hp
    | wsOpen =>
        exfalso
        simp only [step] at hp
        unfold onOpen at hp
        split at hp
        · simp at hp
        · split at hp
          · split at hp
            · simp at hp
              rw [hp] at hping
              simp at hping
            · simp at hp
          · simp at hp

    | wsMessage f => simp [step] at hp
    | wsClose wc c r => simp [step] at hp
    | heartbeatTick =>
        simp only [step, heartbeatTick] at hp
        split at hp
        · next hcond =>
            simp only [Bool.and_eq_true, beq_iff_eq] at hcond
            exact ⟨hcond.1.1, hcond.1.2, hcond.2⟩
        · simp at hp
    | callSendMessage m img cid md =>
        exfalso
        simp only [step, sendMessage] at hp
        split at hp
        · simp at hp
        · split at hp
          · simp at hp
          · simp at hp
            rw [hp] at hping
            simp at hping
    | callCreateNewChat t =>
        exfalso
        simp only [step, createNewChat] at hp
        split at hp
        · simp at hp
        · simp at hp
          rw [hp] at hping
          simp at hping
    | callSwitchToChat cid2 =>
        exfalso
        simp only [step, switchToChat] at hp
        split at hp
        · simp at hp
        · split at hp
          · simp at hp
          · simp at hp
            rw [hp] at hping
            simp at hping
    | callDisconnect => simp [step] at hp

/-- Closed instance of C6: an `auth_success` frame installs the
heartbeat, and a tick in the resulting state sends the ping frame. -/
theorem heartbeat_gating_witness :
    ((jsStrTruthy (none : Option String)
        && jsTrim ((none : Option String).getD "") == "") = false) ∧
    jsOr (some "auth_success") none = some "auth_success" ∧
    (handleMessage initialClient
      { type := some "auth_success", session_id := some "s1"
        chat_id := some "c1" }).state.heartbeatActive = true := by
  refine ⟨by decide, by decide, ?_⟩
  exact (heartbeat_gating initialClient
    { type := some "auth_success", session_id := some "s1"
      chat_id := some "c1" }
    Action.heartbeatTick true 1000 "x").2.2.2.1 (by decide) (by decide)

/-- Helper: when the event label is unrecognized, no dedicated `switch`
case matches. -/
theorem unrecognized_beq_false (et : Option String)
    (h : recognizedEvent et = false) (lit : String)
    (hlit : recognizedEvents.contains lit = true) :
    (et == some lit) = false := by
  cases et with
  | none => rfl
  | some v =>
      simp only [recognizedEvent] at h
      rw [beq_eq_false_iff_ne]
      intro hvl
      obtain rfl : v = lit := by injection hvl
      rw [h] at hlit
      exact Bool.false_ne_true hlit

set_option maxHeartbeats 2000000 in
/-- C8: inbound processing is non-fatal — a frame that is not valid JSON
is caught and reported locally with no state change; a parsed frame with
no recognized `type`/`event` label and no non-empty text is reported and
ignored without affecting client state; and no inbound frame ever closes
the connection or alters the socket state. -/
theorem malformed_frames_nonfatal (s : WSClientState) (raw : String)
    (d : InData) (f : RawFrame) :
    (onMessage s (RawFrame.malformed raw) =
      { state := s, emitted := [], localReports := 1
        closedSocket := false }) ∧
    (recognizedEvent (jsOr d.type d.event) = false →
      (d.text = none ∨ jsTrim (d.text.getD "") = "") →
      handleMessage s d =
        { state := s, emitted := [], localReports := 1
          closedSocket := false }) ∧
    ((onMessage s f).closedSocket = false) ∧
    ((onMessage s f).state.readyState = s.readyState) := by
  refine ⟨rfl, ?_, ?_, ?_⟩
  · intro hrec htext
    have hb := unrecognized_beq_false (jsOr d.type d.event) hrec
    simp only [handleMessage,
      hb "auth_success" (by decide), hb "auth_error" (by decide),
      hb "auth_required" (by decide), hb "session_started" (by decide),
      hb "chat_created" (by decide), hb "chat_switched" (by decide),
      hb "title_updated" (by decide), hb "nano_message" (by decide),
      hb "agent_direct_message" (by decide),
      hb "agent_notification" (by decide), hb "message" (by decide),
      hb "pong" (by decide), if_false, Bool.false_eq_true]
    rcases htext with h0 | htr
    · simp [h0, jsStrTruthy]
    · cases ht : d.text with
      | none => simp [ht, jsStrTruthy]
      | some u =>
          rw [ht] at htr
          simp only [ht, Option.getD_some] at htr ⊢
          by_cases hu : u.isEmpty
          · simp [jsStrTruthy, hu, htr]
          · simp [jsStrTruthy, hu, htr]
  · cases f with
    | malformed raw2 => rfl
    | parsed d2 =>
        show (handleMessage s d2).closedSocket = false
        simp only [handleMessage,
          apply_ite (fun h : HandleOut => h.closedSocket), ite_self]
  · cases f with
    | malformed raw2 => rfl
    | parsed d2 =>
        show (handleMessage s d2).state.readyState = s.readyState
        simp only [handleMessage,
          apply_ite (fun h : HandleOut => h.state.readyState), ite_self]

/-- Closed instance of C8: a frame with unknown label "weird" and no text
is ignored with one local report and an unchanged state. -/
theorem malformed_frames_nonfatal_witness :
    recognizedEvent (jsOr (some "weird") none) = false ∧
    handleMessage initialClient { type := some "weird" } =
      { state := initialClient, emitted := [], localReports := 1
        closedSocket := false } := by
  refine ⟨by decide, ?_⟩
  exact (malformed_frames_nonfatal initialClient ""
    { type := some "weird" } (RawFrame.parsed { type := some "weird" })).2.1
    (by decide) (Or.inl rfl)

/-- C7: the frames produced after authentication conform to the inbound
wire grammar — every `sendMessage` frame is a turn frame (`text` and
`chat_id` with only the optional `signature` / `image` / `metadata`
extras), `createNewChat` sends exactly the `chat_id: null` plus `title`
frame, and `switchToChat` sends exactly a bare `chat_id` frame when the
target differs from the bound chat and nothing otherwise. -/
theorem outbound_frame_conformance (s : WSClientState) (m t target : String)
    (img cid : Option String) (md : Option Metadata)
    (hca : connectedAuth s = true) :
    (∀ p ∈ (sendMessage s m img cid md).sent, specTurnFrame p = true) ∧
    ((createNewChat s t).sent = [{ chat_id := some none, title := some t }] ∧
      ∀ p ∈ (createNewChat s t).sent, specCreateChatFrame p = true) ∧
    (some target ≠ s.chatId →
      (switchToChat s (some target)).sent =
        [{ chat_id := some (some target) }] ∧
      ∀ p ∈ (switchToChat s (some target)).sent,
        specSwitchChatFrame p = true) ∧
    (some target = s.chatId → (switchToChat s (some target)).sent = []) := by
  refine ⟨?_, ⟨?_, ?_⟩, ?_, ?_⟩
  · intro p hp
    by_cases hm : (jsTrim m).isEmpty
    · simp [sendMessage, hca, hm] at hp
    · simp [sendMessage, hca, hm] at hp
      simp [hp, specTurnFrame]
  · simp [createNewChat, hca]
  · intro p hp
    simp [createNewChat, hca] at hp
    simp [hp, specCreateChatFrame]
  · intro hne
    refine ⟨?_, ?_⟩
    · simp [switchToChat, hca, hne]
    · intro p hp
      simp [switchToChat, hca, hne] at hp
      simp [hp, specSwitchChatFrame]
  · intro he
    simp [switchToChat, hca, he]

/-- Closed instance of C7: from a client bound to "c1", creating a chat
and switching to "c2" produce exactly the grammar frames. -/
theorem outbound_frame_conformance_witness :
    connectedAuth { isAuthenticated := true, readyState := ReadyState.opened
                    chatId := some "c1" } = true ∧
    (createNewChat { isAuthenticated := true, readyState := ReadyState.opened
                     chatId := some "c1" } "New chat").sent =
      [{ chat_id := some none, title := some "New chat" }] ∧
    (switchToChat { isAuthenticated := true, readyState := ReadyState.opened
                    chatId := some "c1" } (some "c2")).sent =
      [{ chat_id := some (some "c2") }] := by
  refine ⟨rfl, ?_, ?_⟩
  · exact (outbound_frame_conformance
      { isAuthenticated := true, readyState := ReadyState.opened
        chatId := some "c1" }
      "m" "New chat" "c2" none none none rfl).2.1.1
  · exact ((outbound_frame_conformance
      { isAuthenticated := true, readyState := ReadyState.opened
        chatId := some "c1" }
      "m" "New chat" "c2" none none none rfl).2.2.1 (by decide)).1

/-! ### Component-level lemmas -/

/-- Helper: running a concatenation of component traces composes. -/
theorem uiRun_append (g : GUIState) (l1 l2 : List UIAction) :
    uiRun g (l1 ++ l2) = uiRun (uiRun g l1) l2 := by
  induction l1 generalizing g with
  | nil => rfl
  | cons a as ih => simp only [List.cons_append, uiRun]; exact ih _

/-- Helper: the ghost server-bound chat and the component's `chatId` stay
equal along any trace once they agree. -/
theorem uiRun_serverChat_sync (l : List UIAction) (g : GUIState)
    (h : g.serverChat = g.ui.chatId) :
    (uiRun g l).serverChat = (uiRun g l).ui.chatId := by
  induction l generalizing g with
  | nil => exact h
  | cons a as ih =>
      refine ih (uiStep g a).gstate ?_
      cases a with
      | evChatSwitched c => simp [uiStep]
      | evChatCreated c => simp [uiStep]
      | evNanoMessage ag msg ts => simpa [uiStep] using h
      | evChatMessage t r n => simpa [uiStep] using h
      | submit t ok => simp only [uiStep]; split_ifs <;> simpa using h

/-- Helper: along a trace that never rebinds to `A`, a state whose server
chat is not `A` and whose nano stream has no entry of origin `A` keeps
both properties. -/
theorem nano_origin_invariant (acts : List UIAction) (g : GUIState)
    (A : Option String) (h1 : g.serverChat ≠ A)
    (h2 : ∀ e ∈ g.ui.nanoStream, e.origin ≠ A)
    (hno : ∀ a ∈ acts, rebindsTo A a = false) :
    (uiRun g acts).serverChat ≠ A ∧
      ∀ e ∈ (uiRun g acts).ui.nanoStream, e.origin ≠ A := by
  induction acts generalizing g with
  | nil => exact ⟨h1, h2⟩
  | cons a as ih =>
      have ha : rebindsTo A a = false := hno a (List.mem_cons_self a as)
      have hstep : (uiStep g a).gstate.serverChat ≠ A ∧
          ∀ e ∈ (uiStep g a).gstate.ui.nanoStream, e.origin ≠ A := by
        cases a with
        | evChatSwitched c =>
            refine ⟨?_, by simp [uiStep]⟩
            simp only [rebindsTo, beq_eq_false_iff_ne] at ha
            simpa [uiStep] using ha
        | evChatCreated c =>
            refine ⟨?_, by simp [uiStep]⟩
            simp only [rebindsTo, beq_eq_false_iff_ne] at ha
            simpa [uiStep] using ha
        | evNanoMessage ag msg ts =>
            refine ⟨h1, ?_⟩
            intro e he
            simp only [uiStep, takeLast] at he
            rcases List.mem_append.mp (List.mem_of_mem_drop he) with h | h
            · exact h2 e h
            · simp only [List.mem_singleton] at h
              subst h
              exact h1
        | evChatMessage t r n =>
            exact ⟨h1, fun e he => h2 e (by simpa [uiStep] using he)⟩
        | submit t ok =>
            refine ⟨?_, ?_⟩
            · simp only [uiStep]
              split_ifs <;> exact h1
            · intro e he
              refine h2 e ?_
              simp only [uiStep] at he
              split_ifs at he <;> simpa using he
      exact ih (uiStep g a).gstate hstep.1 hstep.2
        (fun b hb => hno b (List.mem_cons_of_mem _ hb))

/-- C1: when the component, bound to chat `A`, processes `chat_switched`
for a different chat `B`, the handler rebinds the single active chat id
to `B` and empties the nano status stream, and as long as no later event
rebinds to `A`, every nano entry visible afterwards originates from a
chat other than `A`. -/
theorem chat_switch_atomicity (c0 : Option String) (acts : List UIAction)
    (i : Nat) (B : String) (A : Option String)
    (hi : acts[i]? = some (UIAction.evChatSwitched B))
    (hA : A = (uiRun (uiInit c0) (acts.take i)).ui.chatId)
    (hAB : A ≠ some B) :
    (uiRun (uiInit c0) (acts.take i)).serverChat = A ∧
    (uiRun (uiInit c0) (acts.take (i+1))).ui.chatId = some B ∧
    (uiRun (uiInit c0) (acts.take (i+1))).ui.nanoStream = [] ∧
    ∀ j, i < j →
      (∀ a ∈ (acts.take j).drop (i+1), rebindsTo A a = false) →
      ∀ e ∈ (uiRun (uiInit c0) (acts.take j)).ui.nanoStream, e.origin ≠ A := by
  have htake : acts.take (i+1) = acts.take i ++ [UIAction.evChatSwitched B] := by
    rw [List.take_succ, hi]
    rfl
  have hrun1 : uiRun (uiInit c0) (acts.take (i+1)) =
      (uiStep (uiRun (uiInit c0) (acts.take i))
        (UIAction.evChatSwitched B)).gstate := by
    rw [htake, uiRun_append]
    rfl
  refine ⟨?_, ?_, ?_, ?_⟩
  · rw [hA]
    exact uiRun_serverChat_sync _ _ rfl
  · rw [hrun1]; simp [uiStep]
  · rw [hrun1]; simp [uiStep]
  · intro j hj hno e he
    have hjtake : acts.take j = acts.take (i+1) ++ (acts.take j).drop (i+1) := by
      conv_lhs => rw [← List.take_append_drop (i+1) (acts.take j)]
      rw [List.take_take, Nat.min_eq_left (Nat.succ_le_of_lt hj)]
    rw [hjtake, uiRun_append, hrun1] at he
    refine (nano_origin_invariant _ _ A ?_ ?_ hno).2 e he
    · simp only [uiStep]
      intro hcontra
      exact hAB (by simpa using hcontra.symm)
    · simp [uiStep]

/-- Closed instance of C1: after switching from "A" to "B", a nano event
delivered next is visible with origin "B", not "A". -/
theorem chat_switch_atomicity_witness :
    ([UIAction.evChatSwitched "B",
      UIAction.evNanoMessage "agent" "working" "t1"][0]? =
        some (UIAction.evChatSwitched "B")) ∧
    ((some "A" : Option String) =
      (uiRun (uiInit (some "A"))
        (([UIAction.evChatSwitched "B",
           UIAction.evNanoMessage "agent" "working" "t1"]).take 0)).ui.chatId) ∧
    ((some "A" : Option String) ≠ some "B") ∧
    (∀ e ∈ (uiRun (uiInit (some "A"))
        (([UIAction.evChatSwitched "B",
           UIAction.evNanoMessage "agent" "working" "t1"]).take 2)).ui.nanoStream,
      e.origin ≠ some "A") := by
  refine ⟨rfl, rfl, by decide, ?_⟩
  exact (chat_switch_atomicity (some "A")
    [UIAction.evChatSwitched "B", UIAction.evNanoMessage "agent" "working" "t1"]
    0 "B" (some "A") rfl rfl (by decide)).2.2.2 2 (by decide) (by decide)

/-- C2 counterexample: a second message submitted while a turn is in
flight is not queued — in the run submit "m1", submit "m2", final
`chat_message`, only "m1" is ever sent, and the run is indistinguishable
from one in which "m2" was never submitted, so "m2" is not processed
after the first turn completes either. -/
theorem turn_serialization_counterexample :
    uiSent (uiInit (some "c1"))
      [UIAction.submit "m1" true, UIAction.submit "m2" true,
       UIAction.evChatMessage "r1" false none] = ["m1"] ∧
    uiRun (uiInit (some "c1"))
      [UIAction.submit "m1" true, UIAction.submit "m2" true,
       UIAction.evChatMessage "r1" false none] =
      uiRun (uiInit (some "c1"))
        [UIAction.submit "m1" true,
         UIAction.evChatMessage "r1" false none] := by
  exact ⟨by decide, by decide⟩

/-- Helper: from a state with a turn in flight, no frame is sent and the
in-flight flag stays set until a final `chat_message` is processed. -/
theorem no_send_while_sending (acts : List UIAction) (g : GUIState)
    (hs : g.ui.isSending = true)
    (hno : ∀ a ∈ acts, isChatMessageEv a = false) :
    uiSent g acts = [] ∧ (uiRun g acts).ui.isSending = true := by
  induction acts generalizing g with
  | nil => exact ⟨rfl, hs⟩
  | cons a as ih =>
      have ha : isChatMessageEv a = false := hno a (List.mem_cons_self a as)
      have hstep : (uiStep g a).sentTexts = [] ∧
          (uiStep g a).gstate.ui.isSending = true := by
        cases a with
        | evChatSwitched c => exact ⟨rfl, by simpa [uiStep] using hs⟩
        | evChatCreated c => exact ⟨rfl, by simpa [uiStep] using hs⟩
        | evNanoMessage ag msg ts => exact ⟨rfl, by simpa [uiStep] using hs⟩
        | evChatMessage t r n => simp [isChatMessageEv] at ha
        | submit t ok => simp [uiStep, hs]
      have htl := ih (uiStep g a).gstate hstep.2
        (fun b hb => hno b (List.mem_cons_of_mem _ hb))
      refine ⟨?_, htl.2⟩
      show (uiStep g a).sentTexts ++ uiSent (uiStep g a).gstate as = []
      rw [hstep.1, htl.1]
      rfl

/-- C2 amended: a second user message submitted before the current turn's
final `chat_message` is processed is dropped — the submission changes no
component state and sends no frame — and no frame at all is sent until
the in-flight turn completes, so the client never has two turns in
flight; the second message is not queued for later processing. -/
theorem turn_serialization_amended (g : GUIState) (text : String) (ok : Bool)
    (acts : List UIAction) (hs : g.ui.isSending = true)
    (hno : ∀ a ∈ acts, isChatMessageEv a = false) :
    uiStep g (UIAction.submit text ok) = { gstate := g, sentTexts := [] } ∧
    uiSent g acts = [] ∧ (uiRun g acts).ui.isSending = true := by
  refine ⟨?_, no_send_while_sending acts g hs hno⟩
  simp [uiStep, hs]

/-- Closed instance of the amended C2: with "m1" in flight, submitting
"m2" is a no-op and nothing is sent before the turn's final message. -/
theorem turn_serialization_amended_witness :
    ((uiRun (uiInit (some "c1"))
        [UIAction.submit "m1" true]).ui.isSending = true) ∧
    uiStep (uiRun (uiInit (some "c1")) [UIAction.submit "m1" true])
        (UIAction.submit "m2" true) =
      { gstate := uiRun (uiInit (some "c1")) [UIAction.submit "m1" true]
        sentTexts := [] } ∧
    uiSent (uiRun (uiInit (some "c1")) [UIAction.submit "m1" true])
      [UIAction.evNanoMessage "agent" "working" "t1"] = [] := by
  refine ⟨by decide, ?_, ?_⟩
  · exact (turn_serialization_amended
      (uiRun (uiInit (some "c1")) [UIAction.submit "m1" true]) "m2" true
      [UIAction.evNanoMessage "agent" "working" "t1"]
      (by decide) (by decide)).1
  · exact (turn_serialization_amended
      (uiRun (uiInit (some "c1")) [UIAction.submit "m1" true]) "m2" true
      [UIAction.evNanoMessage "agent" "working" "t1"]
      (by decide) (by decide)).2.1

/-! ### Connection-lifecycle lemmas for the token discipline -/

/-- Helper: `handleMessage` never changes the socket state or the
token-sent guard. -/
theorem handleMessage_preserves (s : WSClientState) (d : InData) :
    (handleMessage s d).state.readyState = s.readyState ∧
      (handleMessage s d).state.tokenSent = s.tokenSent := by
  constructor
  · simp only [handleMessage,
      apply_ite (fun h : HandleOut => h.state.readyState), ite_self]
  · simp only [handleMessage,
      apply_ite (fun h : HandleOut => h.state.tokenSent), ite_self]

/-- Helper: `onmessage` never changes the socket state or the token-sent
guard. -/
theorem onMessage_preserves (s : WSClientState) (f : RawFrame) :
    (onMessage s f).state.readyState = s.readyState ∧
      (onMessage s f).state.tokenSent = s.tokenSent := by
  cases f with
  | malformed raw => exact ⟨rfl, rfl⟩
  | parsed d => exact handleMessage_preserves s d

/-- Helper: apart from the `onopen` of a connecting socket, no step sends
a frame carrying a token. -/
theorem step_sent_no_token (s : WSClientState) (a : Action)
    (hno : opensConnection s a = false) :
    ∀ p ∈ (step s a).sent, p.token = none := by
  cases a with
  | callConnect tok => simp [step]
  | wsOpen =>
      intro p hp
      simp only [opensConnection] at hno
      simp [step, onOpen, bne, hno] at hp
  | wsMessage f => simp [step]
  | wsClose wc c r => simp [step]
  | heartbeatTick =>
      intro p hp
      simp only [step, heartbeatTick] at hp
      split at hp
      · simp at hp
        subst hp
        rfl
      · simp at hp
  | callSendMessage m img cid md =>
      intro p hp
      simp only [step, sendMessage] at hp
      split at hp
      · simp at hp
      · split at hp
        · simp at hp
        · simp at hp
          subst hp
          rfl
  | callCreateNewChat t =>
      intro p hp
      simp only [step, createNewChat] at hp
      split at hp
      · simp at hp
      · simp at hp
        subst hp
        rfl
  | callSwitchToChat cid =>
      intro p hp
      simp only [step, switchToChat] at hp
      split at hp
      · simp at hp
      · split at hp
        · simp at hp
        · simp at hp
          subst hp
          rfl
  | callDisconnect => simp [step]

/-- Helper: while the socket is not OPEN, no step other than a
connection-opening one sends anything at all. -/
theorem step_sent_empty_of_not_opened (s : WSClientState) (a : Action)
    (h : s.readyState ≠ ReadyState.opened)
    (hno : opensConnection s a = false) :
    (step s a).sent = [] := by
  have hbeq : (s.readyState == ReadyState.opened) = false :=
    beq_eq_false_iff_ne.mpr h
  cases a with
  | callConnect tok => rfl
  | wsOpen =>
      simp only [opensConnection] at hno
      simp [step, onOpen, bne, hno]
  | wsMessage f => rfl
  | wsClose wc c r => rfl
  | heartbeatTick => simp [step, heartbeatTick, hbeq]
  | callSendMessage m img cid md =>
      simp [step, sendMessage, connectedAuth, hbeq]
  | callCreateNewChat t => simp [step, createNewChat, connectedAuth, hbeq]
  | callSwitchToChat cid => simp [step, switchToChat, connectedAuth, hbeq]
  | callDisconnect => rfl

/-- Helper: the socket only ever becomes OPEN through the `onopen` of a
connecting socket. -/
theorem step_not_opened (s : WSClientState) (a : Action)
    (h : s.readyState ≠ ReadyState.opened)
    (hno : opensConnection s a = false) :
    (step s a).state.readyState ≠ ReadyState.opened := by
  cases a with
  | callConnect tok =>
      simp only [step, connect]
      split
      · exact h
      · simp
  | wsOpen =>
      simp only [opensConnection] at hno
      simp [step, onOpen, bne, hno]
      exact h
  | wsMessage f =>
      show (onMessage s f).state.readyState ≠ ReadyState.opened
      rw [(onMessage_preserves s f).1]
      exact h
  | wsClose wc c r =>
      simp only [step, onClose]
      split <;> simp [scheduleReconnect]
  | heartbeatTick => exact h
  | callSendMessage m img cid md =>
      simp only [step, sendMessage]
      split
      · exact h
      · split
        · exact h
        · exact h
  | callCreateNewChat t =>
      simp only [step, createNewChat]
      split
      · exact h
      · exact h
  | callSwitchToChat cid =>
      simp only [step, switchToChat]
      split
      · exact h
      · split
        · exact h
        · exact h
  | callDisconnect =>
      simp only [step, disconnect]
      split <;> simp

/-- Helper: every step preserves `tokenInv`, provided `connect` is only
called on a fully closed socket. -/
theorem step_tokenInv (s : WSClientState) (a : Action) (hInv : tokenInv s)
    (hwf : connectOnlyClosed s a) :
    tokenInv (step s a).state := by
  cases a with
  | callConnect tok =>
      have htok : s.tokenSent = false := hInv.2 hwf
      simp only [step, connect]
      split
      · exact hInv
      · exact ⟨fun _ => htok, fun hcl => by simp at hcl⟩
  | wsOpen =>
      by_cases hc : s.readyState = ReadyState.connecting
      · have hbne : (s.readyState != ReadyState.connecting) = false := by
          simp [bne, hc]
        by_cases htr : jsStrTruthy s.pendingToken = true
        · have htok : s.tokenSent = false := hInv.1 hc
          simp only [step, onOpen, hbne, Bool.false_eq_true, if_false, htr,
            if_true, htok, Bool.not_false]
          exact ⟨fun hcl => by simp at hcl, fun hcl => by simp at hcl⟩
        · simp only [step, onOpen, hbne, Bool.false_eq_true, if_false,
            htr]
          refine ⟨fun hcl => ?_, fun hcl => ?_⟩ <;> simp at hcl
      · have hbne : (s.readyState != ReadyState.connecting) = true := by
          simp [bne, hc]
        simpa [step, onOpen, hbne] using hInv
  | wsMessage f =>
      simp only [step, tokenInv]
      refine ⟨fun hcl => ?_, fun hcl => ?_⟩ <;>
        rw [(onMessage_preserves s f).1] at hcl <;>
        rw [(onMessage_preserves s f).2]
      · exact hInv.1 hcl
      · exact hInv.2 hcl
  | wsClose wc c r =>
      simp only [step, onClose]
      split <;>
        exact ⟨fun hcl => by simp_all [scheduleReconnect],
               fun hcl => by simp_all [scheduleReconnect]⟩
  | heartbeatTick => exact hInv
  | callSendMessage m img cid md =>
      simp only [step, sendMessage]
      split
      · exact hInv
      · split
        · exact hInv
        · exact ⟨fun hcl => hInv.1 hcl, fun hcl => hInv.2 hcl⟩
  | callCreateNewChat t =>
      simp only [step, createNewChat]
      split
      · exact hInv
      · exact hInv
  | callSwitchToChat cid =>
      simp only [step, switchToChat]
      split
      · exact hInv
      · split
        · exact hInv
        · exact hInv
  | callDisconnect =>
      simp only [step, disconnect]
      by_cases hcl : s.readyState = ReadyState.closed
      · have hbeq : (s.readyState == ReadyState.closed) = true := by
          simp [hcl]
        simp only [hbeq, if_true]
        exact ⟨fun hc2 => by simp at hc2, fun _ => hInv.2 hcl⟩
      · have hbeq : (s.readyState == ReadyState.closed) = false := by
          simp [hcl]
        simp only [hbeq, Bool.false_eq_true, if_false]
        exact ⟨fun hc2 => by simp at hc2, fun hc2 => by simp at hc2⟩

/-- Helper: the frames of a concatenated log split per connection. -/
theorem epochFrames_append (l1 l2 : List (Nat × Payload)) (e : Nat) :
    epochFrames (l1 ++ l2) e = epochFrames l1 e ++ epochFrames l2 e := by
  simp [epochFrames, List.filter_append]

/-- Helper: the frames of a uniformly tagged block belong to exactly that
connection. -/
theorem epochFrames_mapTag (t : Nat) (ps : List Payload) (e : Nat) :
    epochFrames (ps.map (fun p => (t, p))) e =
      if t = e then ps else [] := by
  induction ps with
  | nil => simp [epochFrames]
  | cons p ps ih =>
      by_cases h : t = e
      · subst h
        simp only [epochFrames, List.map_cons, List.filter_cons] at ih ⊢
        simp_all
      · have hb : (t == e) = false := beq_eq_false_iff_ne.mpr h
        simp only [epochFrames, List.map_cons, List.filter_cons] at ih ⊢
        simp_all

/-- Helper: over a well-ordered trace from a state satisfying `tokenInv`,
the tagged send log is monotone in the connection number, every later
connection's frame list is token-first, the current connection receives
no further token frame, and a connection whose socket is no longer OPEN
receives no frame at all. -/
theorem runEpochs_props (acts : List Action) : ∀ (s : WSClientState) (e : Nat),
    tokenInv s → wellFormedFrom s acts = true →
    (∀ pr ∈ runEpochs s e acts, e ≤ pr.1) ∧
    (∀ f, e < f → goodEpoch (epochFrames (runEpochs s e acts) f) = true) ∧
    (∀ p ∈ epochFrames (runEpochs s e acts) e, p.token = none) ∧
    (s.readyState ≠ ReadyState.opened →
      epochFrames (runEpochs s e acts) e = []) := by
  induction acts with
  | nil =>
      intro s e _ _
      exact ⟨by simp [runEpochs], fun f _ => by simp [runEpochs, epochFrames, goodEpoch],
        by simp [runEpochs, epochFrames], fun _ => by simp [runEpochs, epochFrames]⟩
  | cons a as ih =>
      intro s e hInv hwf
      have hwf2 : wellFormedFrom (step s a).state as = true := by
        simp only [wellFormedFrom, Bool.and_eq_true] at hwf
        exact hwf.2
      have hwf1 : connectGuardOk s a = true := by
        simp only [wellFormedFrom, Bool.and_eq_true] at hwf
        exact hwf.1
      have hwfa : connectOnlyClosed s a := by
        clear hwf hwf2
        cases a with
        | callConnect tok =>
            show s.readyState = ReadyState.closed
            exact eq_of_beq hwf1
        | wsOpen => trivial
        | wsMessage f => trivial
        | wsClose wc c r => trivial
        | heartbeatTick => trivial
        | callSendMessage m img cid md => trivial
        | callCreateNewChat t => trivial
        | callSwitchToChat cid => trivial
        | callDisconnect => trivial
      have hInv2 : tokenInv (step s a).state := step_tokenInv s a hInv hwfa
      by_cases hop : opensConnection s a = true
      · -- the step is the onopen of a connecting socket: a new connection
        have ha : a = Action.wsOpen := by
          cases a
          case wsOpen => rfl
          all_goals simp [opensConnection] at hop
        subst ha
        have hconn : s.readyState = ReadyState.connecting := by
          simpa [opensConnection] using hop
        have htok : s.tokenSent = false := hInv.1 hconn
        have hbne : (s.readyState != ReadyState.connecting) = false := by
          simp [bne, hconn]
        have hrun : runEpochs s e (Action.wsOpen :: as) =
            (step s Action.wsOpen).sent.map (fun p => (e + 1, p)) ++
              runEpochs (step s Action.wsOpen).state (e + 1) as := by
          simp [runEpochs, hop]
        have IH := ih (step s Action.wsOpen).state (e + 1) hInv2 hwf2
        by_cases htr : jsStrTruthy s.pendingToken = true
        · -- the captured token is truthy: the token frame is sent first
          have hsent : (step s Action.wsOpen).sent =
              [{ token := s.pendingToken }] := by
            simp [step, onOpen, hbne, htr, htok]
          have htokfr : isTokenOnlyFrame { token := s.pendingToken } = true := by
            simp only [isTokenOnlyFrame]
            cases hp : s.pendingToken with
            | none => rw [hp] at htr; simp [jsStrTruthy] at htr
            | some v => simp
          refine ⟨?_, ?_, ?_, ?_⟩
          · intro pr hpr
            rw [hrun] at hpr
            rcases List.mem_append.mp hpr with h | h
            · rcases List.mem_map.mp h with ⟨p, _, rfl⟩
              exact Nat.le_succ e
            · exact Nat.le_of_succ_le (IH.1 pr h)
          · intro f hf
            rw [hrun, epochFrames_append, epochFrames_mapTag]
            by_cases hef : e + 1 = f
            · subst hef
              simp only [if_pos rfl, hsent]
              show goodEpoch ({ token := s.pendingToken } ::
                epochFrames (runEpochs (step s Action.wsOpen).state (e+1) as)
                  (e+1)) = true
              simp only [goodEpoch, Bool.and_eq_true, htokfr, true_and,
                List.all_eq_true]
              intro q hq
              have := IH.2.2.1 q hq
              simp [this]
            · have hf2 : e + 1 < f := Nat.lt_of_le_of_ne (Nat.succ_le_of_lt hf) hef
              simp only [if_neg hef, List.nil_append]
              exact IH.2.1 f hf2
          · intro p hp
            rw [hrun, epochFrames_append, epochFrames_mapTag] at hp
            have hne : ¬(e + 1 = e) := by omega
            simp only [if_neg hne, List.nil_append] at hp
            have := IH.1
            exfalso
            have hmem : (e, p) ∈ runEpochs (step s Action.wsOpen).state (e+1) as := by
              simp only [epochFrames, List.mem_map] at hp
              rcases hp with ⟨pr, hpr, rfl⟩
              have : pr.1 = e := by
                have := List.mem_filter.mp hpr
                exact eq_of_beq this.2
              have hpr2 := (List.mem_filter.mp hpr).1
              rcases pr with ⟨t, q⟩
              simp_all
            have := IH.1 (e, p) hmem
            omega
          · intro _
            rw [hrun, epochFrames_append, epochFrames_mapTag]
            have hne : ¬(e + 1 = e) := by omega
            simp only [if_neg hne, List.nil_append]
            rcases hE : epochFrames
                (runEpochs (step s Action.wsOpen).state (e+1) as) e with _ | ⟨p, ps⟩
            · rfl
            · exfalso
              have hp : p ∈ epochFrames
                  (runEpochs (step s Action.wsOpen).state (e+1) as) e := by
                rw [hE]; exact List.mem_cons_self p ps
              simp only [epochFrames, List.mem_map] at hp
              rcases hp with ⟨pr, hpr, rfl⟩
              have h1 := (List.mem_filter.mp hpr).2
              have h2 := IH.1 pr (List.mem_filter.mp hpr).1
              have : pr.1 = e := eq_of_beq h1
              omega
        · -- no token captured: the socket closes and nothing is sent
          have hsent : (step s Action.wsOpen).sent = [] := by
            simp [step, onOpen, hbne, htr]
          have hnotopen : (step s Action.wsOpen).state.readyState ≠
              ReadyState.opened := by
            simp [step, onOpen, hbne, htr]
          refine ⟨?_, ?_, ?_, ?_⟩
          · intro pr hpr
            rw [hrun, hsent] at hpr
            simp only [List.map_nil, List.nil_append] at hpr
            exact Nat.le_of_succ_le (IH.1 pr hpr)
          · intro f hf
            rw [hrun, hsent]
            simp only [List.map_nil, List.nil_append]
            by_cases hef : e + 1 = f
            · subst hef
              rw [IH.2.2.2 hnotopen]
              rfl
            · exact IH.2.1 f (Nat.lt_of_le_of_ne (Nat.succ_le_of_lt hf) hef)
          · intro p hp
            rw [hrun, hsent] at hp
            simp only [List.map_nil, List.nil_append] at hp
            simp only [epochFrames, List.mem_map] at hp
            rcases hp with ⟨pr, hpr, rfl⟩
            have h2 := IH.1 pr (List.mem_filter.mp hpr).1
            have : pr.1 = e := eq_of_beq (List.mem_filter.mp hpr).2
            omega
          · intro _
            rw [hrun, hsent]
            simp only [List.map_nil, List.nil_append]
            rcases hE : epochFrames
                (runEpochs (step s Action.wsOpen).state (e+1) as) e with _ | ⟨p, ps⟩
            · rfl
            · exfalso
              have hp : p ∈ epochFrames
                  (runEpochs (step s Action.wsOpen).state (e+1) as) e := by
                rw [hE]; exact List.mem_cons_self p ps
              simp only [epochFrames, List.mem_map] at hp
              rcases hp with ⟨pr, hpr, rfl⟩
              have h2 := IH.1 pr (List.mem_filter.mp hpr).1
              have : pr.1 = e := eq_of_beq (List.mem_filter.mp hpr).2
              omega
      · -- an ordinary step inside the current connection
        have hop2 : opensConnection s a = false := by
          simpa using hop
        have hrun : runEpochs s e (a :: as) =
            (step s a).sent.map (fun p => (e, p)) ++
              runEpochs (step s a).state e as := by
          simp [runEpochs, hop2]
        have IH := ih (step s a).state e hInv2 hwf2
        refine ⟨?_, ?_, ?_, ?_⟩
        · intro pr hpr
          rw [hrun] at hpr
          rcases List.mem_append.mp hpr with h | h
          · rcases List.mem_map.mp h with ⟨p, _, rfl⟩
            exact Nat.le_refl e
          · exact IH.1 pr h
        · intro f hf
          rw [hrun, epochFrames_append, epochFrames_mapTag]
          have hne : ¬(e = f) := by omega
          simp only [if_neg hne, List.nil_append]
          exact IH.2.1 f hf
        · intro p hp
          rw [hrun, epochFrames_append, epochFrames_mapTag] at hp
          simp only [if_pos rfl] at hp
          rcases List.mem_append.mp hp with h | h
          · exact step_sent_no_token s a hop2 p h
          · exact IH.2.2.1 p h
        · intro hnot
          rw [hrun, epochFrames_append, epochFrames_mapTag]
          simp only [if_pos rfl]
          rw [step_sent_empty_of_not_opened s a hnot hop2,
            IH.2.2.2 (step_not_opened s a hnot hop2)]
          rfl

/-- C3: on a well-ordered trace from a fresh client, every operation
frame is gated by authentication — `sendMessage`, `createNewChat` and
`switchToChat` all throw "Not connected or authenticated" and send
nothing while unauthenticated or with the socket not OPEN — and on every
connection the send log is either empty or begins with exactly the
`(token)` auth frame, which is the only token frame of that connection,
so the token is the first frame and is sent at most once per
connection. -/
theorem unauthenticated_discipline (s : WSClientState) (m t : String)
    (img cid cid2 : Option String) (md : Option Metadata)
    (acts : List Action)
    (hwf : wellFormedFrom initialClient acts = true) :
    (connectedAuth s = false →
      sendMessage s m img cid md =
        { state := s, sent := []
          threw := some "Not connected or authenticated" } ∧
      createNewChat s t =
        { state := s, sent := []
          threw := some "Not connected or authenticated" } ∧
      switchToChat s cid2 =
        { state := s, sent := []
          threw := some "Not connected or authenticated" }) ∧
    (∀ e, goodEpoch (epochFrames (runEpochs initialClient 0 acts) e) = true) := by
  constructor
  · intro h
    refine ⟨?_, ?_, ?_⟩ <;> simp [sendMessage, createNewChat, switchToChat, h]
  · intro e
    have hInv0 : tokenInv initialClient := ⟨fun _ => rfl, fun _ => rfl⟩
    have H := runEpochs_props acts initialClient 0 hInv0 hwf
    rcases Nat.eq_zero_or_pos e with he | he
    · subst he
      rw [H.2.2.2 (by simp [initialClient])]
      rfl
    · exact H.2.1 e he

/-- Closed instance of C3: on the trace connect, open, `auth_success`,
send "hi", the sole connection's log is the token frame followed by the
turn frame, and is token-first with a single token; a `sendMessage` on
the fresh client throws. -/
theorem unauthenticated_discipline_witness :
    wellFormedFrom initialClient
      [Action.callConnect (some "tok"), Action.wsOpen,
       Action.wsMessage (RawFrame.parsed
         { type := some "auth_success", session_id := some "s1",
           chat_id := some "c1" }),
       Action.callSendMessage "hi" none none none] = true ∧
    connectedAuth initialClient = false ∧
    (sendMessage initialClient "hi" none none none).threw =
      some "Not connected or authenticated" ∧
    goodEpoch (epochFrames (runEpochs initialClient 0
      [Action.callConnect (some "tok"), Action.wsOpen,
       Action.wsMessage (RawFrame.parsed
         { type := some "auth_success", session_id := some "s1",
           chat_id := some "c1" }),
       Action.callSendMessage "hi" none none none]) 1) = true := by
  refine ⟨by decide, rfl, ?_, ?_⟩
  · exact congrArg SendOut.threw
      (((unauthenticated_discipline initialClient "hi" "t" none none none
        none [] (by decide)).1 rfl).1)
  · exact (unauthenticated_discipline initialClient "hi" "t" none none none
      none
      [Action.callConnect (some "tok"), Action.wsOpen,
       Action.wsMessage (RawFrame.parsed
         { type := some "auth_success", session_id := some "s1",
           chat_id := some "c1" }),
       Action.callSendMessage "hi" none none none]
      (by decide)).2 1

end MultimodalAgent
